import Mathlib

/-!
Shallow embedding of `src/render_gfx.rs` from the shadertoy-browser
repository: the `GfxBackend` render backend with its shader-to-pipeline
compilation path (`new_pipeline`), its pipeline-cache lifecycle
(`GfxBackend::new` cache loading, `write_pipeline_cache`), and `render_frame`.

Modelling conventions:
* Machine bytes and 32-bit SPIR-V words are `Nat` (file contents are byte
  lists, every entry < 256; words are reduced mod 2^32 where conversions
  matter). Host endianness is little-endian.
* The filesystem and the external collaborators (the `shaderc` compiler and
  the `gfx_hal` device, both external crates) are explicit parameters; their
  observable behaviour is what the Rust code sees through their result types.
* Rust `panic!`/`unwrap` failure is distinguished from an `Err` return by the
  `Outcome` type.
* Each operation also returns the list of externally visible `Event`s it
  performed, in program order; the `Mutex<Vec<B::GraphicsPipeline>>` lock
  acquisition and release around the pool push appear as events, so lock
  discipline is a property of the trace.
-/

namespace ShadertoyBrowser

/-! ## Bytes and SPIR-V words -/

/-- The four little-endian bytes of a 32-bit word (`Nat`, high bits beyond
2^32 are truncated by the byte extraction). -/
def wordToBytes (w : Nat) : List Nat :=
  [w % 256, w / 256 % 256, w / 65536 % 256, w / 16777216 % 256]

/-- A 32-bit word buffer viewed as its little-endian byte buffer; this is
what shaderc's `as_binary_u8` exposes for the same artifact as `as_binary`. -/
def wordsToBytes : List Nat → List Nat
  | [] => []
  | w :: ws => wordToBytes w ++ wordsToBytes ws

/-- Reinterpret a byte buffer as little-endian 32-bit words (trailing bytes
beyond a multiple of four are never present at its use sites, which check
divisibility by 4 first). -/
def bytesToWords : List Nat → List Nat
  | b0 :: b1 :: b2 :: b3 :: rest =>
      (b0 + 256 * b1 + 65536 * b2 + 16777216 * b3) :: bytesToWords rest
  | _ => []

/-- The SPIR-V magic number `0x0723_0203`. -/
def SPIRV_MAGIC_NUMBER : Nat := 0x07230203

/-- Embeds `u32::swap_bytes`. -/
def swapBytes32 (w : Nat) : Nat :=
  w % 256 * 16777216 + w / 256 % 256 * 65536 + w / 65536 % 256 * 256 +
    w / 16777216 % 256

/-- Embeds `gfx_auxil::read_spirv`: reject a byte length not divisible by 4,
reinterpret the bytes as native-endian `u32` words, byte-swap all words when
the first word is the byte-swapped magic number, then require the magic
number as the first word. -/
def read_spirv (data : List Nat) : Except String (List Nat) :=
  if data.length % 4 ≠ 0 then
    .error "input length not divisible by 4"
  else
    let result := bytesToWords data
    let result :=
      match result with
      | w :: _ =>
          if w = swapBytes32 SPIRV_MAGIC_NUMBER then result.map swapBytes32
          else result
      | [] => []
    match result with
    | [] => .error "input missing SPIR-V magic number"
    | w :: _ =>
        if w = SPIRV_MAGIC_NUMBER then .ok result
        else .error "input missing SPIR-V magic number"

/-! ## Filesystem -/

/-- The filesystem visible to the backend: an association from paths to byte
contents, plus the sets of paths on which opening/reading respectively
writing fails with an I/O error (permissions, device errors …).  A path in
`readFail` may still `exists_` (metadata is readable, opening is not). -/
structure FS where
  files : List (String × List Nat)
  readFail : List String
  writeFail : List String
deriving DecidableEq

/-- Embeds `std::path::Path::exists`. -/
def FS.exists_ (fs : FS) (p : String) : Bool :=
  (fs.files.lookup p).isSome

/-- Embeds `std::fs::read` / `File::open` + read: the whole contents or an I/O
error. -/
def FS.read (fs : FS) (p : String) : Except String (List Nat) :=
  if fs.readFail.contains p then .error "I/O error"
  else
    match fs.files.lookup p with
    | some d => .ok d
    | none => .error "No such file or directory"

/-- Embeds `std::fs::write`: replace the file's contents, or fail with an I/O
error leaving the filesystem unchanged. -/
def FS.write (fs : FS) (p : String) (d : List Nat) : Except String FS :=
  if fs.writeFail.contains p then .error "I/O error"
  else .ok ⟨(p, d) :: fs.files.eraseP (fun q => q.1 = p), fs.readFail, fs.writeFail⟩

/-! ## External collaborators -/

/-- Embeds `shaderc::ShaderKind` (only the constructors this backend mentions). -/
inductive ShaderKind where
  | fragment
  | vertex
deriving DecidableEq

/-- A `shaderc` compilation artifact.  `binary` is the `as_binary()` word
view; the `as_binary_u8()` byte view is the same buffer reinterpreted. -/
structure Artifact where
  binary : List Nat
deriving DecidableEq

def Artifact.as_binary (a : Artifact) : List Nat := a.binary

def Artifact.as_binary_u8 (a : Artifact) : List Nat := wordsToBytes a.binary

/-- Embeds `pso::EntryPoint`: an entry-point name into a shader module. -/
structure EntryPoint (Module : Type) where
  entry : String
  module : Module
deriving DecidableEq

/-- The primitive topology used by the pipeline descriptor. -/
inductive Primitive where
  | triangleList
deriving DecidableEq

/-- The part of `pso::GraphicsPipelineDesc` that `new_pipeline` fills in:
fixed triangle-list topology, the static vertex entry point and the
per-shader fragment entry point. -/
structure GraphicsPipelineDesc (Module : Type) where
  primitive : Primitive
  vertex : EntryPoint Module
  fragment : Option (EntryPoint Module)
deriving DecidableEq

/-- The external collaborators of the backend, as the Rust code observes
them: the `shaderc` compiler and the `gfx_hal` device operations used by
`GfxBackend`.  `Module` and `Pipeline` stand for the backend-specific opaque
types `B::ShaderModule` and `B::GraphicsPipeline`; the device's pipeline
cache is represented by its blob (a byte list), which
`create_graphics_pipeline` may consult and extend. -/
structure Collab (Module Pipeline : Type) where
  compiler_new_ok : Bool
  compile_into_spirv :
    String → ShaderKind → String → String → Except String Artifact
  create_shader_module : List Nat → Except String Module
  create_graphics_pipeline :
    GraphicsPipelineDesc Module → List Nat → Except String (Pipeline × List Nat)
  get_pipeline_cache_data : List Nat → Except String (List Nat)
  create_pipeline_cache : Option (List Nat) → Except String (List Nat)

/-! ## Backend state, outcomes and traces -/

/-- The fields of `GfxBackend` that the compile/draw/flush operations read
or mutate.  The adapter/instance/surface/queue fields are device-substrate
handles that none of the modelled operations touch.  `GfxBackend::new`
initialises `pipelines` to the empty vector (`Default::default()`). -/
structure GfxBackend (Module Pipeline : Type) where
  pipelines : List Pipeline
  vertex_shader_module : Module
  pipeline_cache : List Nat
deriving DecidableEq

/-- Result of a Rust call: normal return, `Err` return, or a panic
(`unwrap` on a failed `Result`, `todo!()`…). -/
inductive Outcome (α : Type) where
  | ok : α → Outcome α
  | err : String → Outcome α
  | panic : String → Outcome α
deriving DecidableEq

/-- Externally visible events of one backend operation, in program order. -/
inductive Event where
  | fsRead (p : String)
  | compilerInvoke (source : String) (kind : ShaderKind) (path : String)
      (entry : String)
  | fsWrite (p : String) (data : List Nat)
  | createShaderModule (spv : List Nat)
  | createGraphicsPipeline
  | lockAcquire
  | poolPush
  | lockRelease
  | getPipelineCacheData
deriving DecidableEq

def Event.isCompilerInvoke : Event → Bool
  | .compilerInvoke _ _ _ _ => true
  | _ => false

/-- What one `new_pipeline` call produces: its outcome (a
`RenderPipelineHandle`, modelled from the spec as the pipeline's integer
index in the pool — the `crate::render` definition is not under `src/`, but
`Ok(pipelines.len() - 1)` fixes it to `usize`), the backend state and
filesystem after the call, and the event trace. -/
structure StepResult (Module Pipeline : Type) where
  out : Outcome Nat
  st : GfxBackend Module Pipeline
  fs : FS
  trace : List Event
deriving DecidableEq

/-! ## new_pipeline -/

/-- The bytecode-cache file for a shader: `format!("{}.spv", shader_path)`. -/
def spirvPath (shader_path : String) : String := shader_path ++ ".spv"

/-- The pipeline descriptor `new_pipeline` builds: triangle-list topology,
entry `"main"` into the static vertex module and into the fresh fragment
module. -/
def pipelineDescFor {M P : Type} (st : GfxBackend M P) (frag : M) :
    GraphicsPipelineDesc M :=
  ⟨.triangleList, ⟨"main", st.vertex_shader_module⟩, some ⟨"main", frag⟩⟩

/-- Tail of `new_pipeline` (source lines 213–269), reached with the SPIR-V
words `spv` in hand: create the fragment shader module, create the graphics
pipeline against the device pipeline cache, then lock the pool, push, and
return `pipelines.len() - 1`.  Device failures are `Err` returns carrying
the device diagnostic. -/
def new_pipeline_fromSpv {M P : Type} (c : Collab M P) (st : GfxBackend M P)
    (fs : FS) (spv : List Nat) (tr : List Event) : StepResult M P :=
  match c.create_shader_module spv with
  | .error e =>
      ⟨.err ("create_shader_module error: " ++ e), st, fs,
        tr ++ [.createShaderModule spv]⟩
  | .ok frag_shader_module =>
      match c.create_graphics_pipeline (pipelineDescFor st frag_shader_module)
          st.pipeline_cache with
      | .error e =>
          ⟨.err ("pipeline creation failed: " ++ e), st, fs,
            tr ++ [.createShaderModule spv, .createGraphicsPipeline]⟩
      | .ok (pipeline, cache2) =>
          ⟨.ok ((st.pipelines ++ [pipeline]).length - 1),
            ⟨st.pipelines ++ [pipeline], st.vertex_shader_module, cache2⟩, fs,
            tr ++ [.createShaderModule spv, .createGraphicsPipeline,
              .lockAcquire, .poolPush, .lockRelease]⟩

/-- Embeds `GfxBackend::new_pipeline` (the `compile_shader` operation): if the
bytecode cache file `shader_path + ".spv"` exists it is read with
`read_spirv` (both steps `unwrap`ed), otherwise the shaderc compiler is
invoked and, on success, the artifact bytes are written to the cache file
(`unwrap`ed) before the artifact words are used; compiler failure is an
`Err` return `"glsl->spv error: …"`. -/
def new_pipeline {M P : Type} (c : Collab M P) (st : GfxBackend M P) (fs : FS)
    (shader_path shader_source : String) : StepResult M P :=
  if c.compiler_new_ok = false then
    ⟨.panic "shaderc Compiler creation failed", st, fs, []⟩
  else
    let p := spirvPath shader_path
    if fs.exists_ p then
      match fs.read p with
      | .error e => ⟨.panic e, st, fs, [.fsRead p]⟩
      | .ok bytes =>
          match read_spirv bytes with
          | .error e => ⟨.panic e, st, fs, [.fsRead p]⟩
          | .ok spv => new_pipeline_fromSpv c st fs spv [.fsRead p]
    else
      match c.compile_into_spirv shader_source .fragment shader_path "main" with
      | .error error =>
          ⟨.err ("glsl->spv error: " ++ error), st, fs,
            [.compilerInvoke shader_source .fragment shader_path "main"]⟩
      | .ok artifact =>
          match fs.write p artifact.as_binary_u8 with
          | .error e =>
              ⟨.panic e, st, fs,
                [.compilerInvoke shader_source .fragment shader_path "main"]⟩
          | .ok fs2 =>
              new_pipeline_fromSpv c st fs2 artifact.as_binary
                [.compilerInvoke shader_source .fragment shader_path "main",
                  .fsWrite p artifact.as_binary_u8]

/-- A sequence of `new_pipeline` calls against the same backend, threading
the backend state and the filesystem, collecting the outcomes in call
order. -/
def runCompiles {M P : Type} (c : Collab M P) :
    GfxBackend M P → FS → List (String × String) →
      GfxBackend M P × FS × List (Outcome Nat)
  | st, fs, [] => (st, fs, [])
  | st, fs, (path, source) :: rest =>
      let r := new_pipeline c st fs path source
      let rec_ := runCompiles c r.st r.fs rest
      (rec_.1, rec_.2.1, r.out :: rec_.2.2)

/-! ## write_pipeline_cache and render_frame -/

/-- Embeds `GfxBackend::write_pipeline_cache`: reads the device's pipeline-cache
data (`unwrap`ed).  The `std::fs::write("happy_cache.cache", data)` call in
the source is commented out, so the data is discarded and the filesystem is
returned unchanged. -/
def write_pipeline_cache {M P : Type} (c : Collab M P)
    (st : GfxBackend M P) (fs : FS) : Outcome Unit × FS × List Event :=
  match c.get_pipeline_cache_data st.pipeline_cache with
  | .error e => (.panic e, fs, [.getPipelineCacheData])
  | .ok _data => (.ok (), fs, [.getPipelineCacheData])

/-- Embeds `GfxBackend::render_frame`, which is `todo!()`: it panics immediately, for any
parameters, performing no event (in particular it never touches the
pipeline-pool lock). -/
def render_frame {M P α : Type} (_st : GfxBackend M P) (_params : α) :
    Outcome Unit × List Event :=
  (.panic "not yet implemented", [])

/-! ## GfxBackend::new — pipeline-cache loading -/

/-- The well-known pipeline-cache file read by `GfxBackend::new`. -/
def pipeline_cache_file : String := "happy_cache.cache"

/-- The pipeline-cache initialisation inside `GfxBackend::new` (source
lines 161–165): `std::fs::read("happy_cache.cache").unwrap()` followed by
`device.create_pipeline_cache(Some(&data)).unwrap()`.  Both `unwrap`s panic
on failure. -/
def new_cache_init {M P : Type} (c : Collab M P) (fs : FS) :
    Outcome (List Nat) :=
  match fs.read pipeline_cache_file with
  | .error e => .panic e
  | .ok data =>
      match c.create_pipeline_cache (some data) with
      | .error e => .panic e
      | .ok cache => .ok cache

/-! ## Lock discipline on traces -/

/-- The events of a trace performed while the pipeline-pool lock is held,
scanning left to right with the current lock state. -/
def eventsUnderLock : List Event → Bool → List Event
  | [], _ => []
  | e :: tl, held =>
      if e = .lockAcquire then eventsUnderLock tl true
      else if e = .lockRelease then eventsUnderLock tl false
      else if held then e :: eventsUnderLock tl held
      else eventsUnderLock tl held

/-! ## Concrete instances for evaluation -/

/-- A happy-path collaborator over trivial module/pipeline types: the
compiler always yields a fixed valid artifact, the device accepts every
module and pipeline, and cache operations succeed. -/
def okCollab : Collab Unit Unit where
  compiler_new_ok := true
  compile_into_spirv := fun _ _ _ _ => .ok ⟨[SPIRV_MAGIC_NUMBER, 42]⟩
  create_shader_module := fun _ => .ok ()
  create_graphics_pipeline := fun _ cache => .ok ((), cache ++ [1])
  get_pipeline_cache_data := fun cache => .ok cache
  create_pipeline_cache := fun data => .ok (data.getD [])

/-- A fresh backend state over trivial module/pipeline types: empty pool,
the static vertex module, an empty cache blob. -/
def st0 : GfxBackend Unit Unit := ⟨[], (), []⟩

/-- An empty filesystem with no failing paths. -/
def fs0 : FS := ⟨[], [], []⟩

/-- A collaborator whose compiler rejects every source with a fixed
diagnostic; the device side is as in `okCollab`. -/
def failCollab : Collab Unit Unit :=
  { okCollab with compile_into_spirv := fun _ _ _ _ => .error "syntax error" }

/-- A filesystem holding one valid bytecode cache file for `"red.frag"`. -/
def fsRed : FS :=
  ⟨[("red.frag.spv", wordsToBytes [SPIRV_MAGIC_NUMBER, 42])], [], []⟩

/-- Three compile requests, the third repeating the first exactly. -/
def reqsRBR : List (String × String) :=
  [("red.frag", "redsrc"), ("blue.frag", "bluesrc"), ("red.frag", "redsrc")]

/-- A collaborator whose device rejects every shader module. -/
def moduleFailCollab : Collab Unit Unit :=
  { okCollab with create_shader_module := fun _ => .error "bad module" }

/-- A filesystem where `"f.frag.spv"` exists but opening/reading it fails. -/
def fsReadFailF : FS := ⟨[("f.frag.spv", [1])], ["f.frag.spv"], []⟩

/-- A filesystem where writing `"g.frag.spv"` fails. -/
def fsWriteFailG : FS := ⟨[], [], ["g.frag.spv"]⟩

/-! ## Conversion lemmas -/

theorem wordsToBytes_length_mod4 (ws : List Nat) :
    (wordsToBytes ws).length % 4 = 0 := by
  induction ws with
  | nil => rfl
  | cons w ws ih =>
      simp only [wordsToBytes, wordToBytes, List.length_append, List.length_cons,
        List.length_nil]
      omega

theorem bytesToWords_wordsToBytes (ws : List Nat) :
    bytesToWords (wordsToBytes ws) = ws.map (fun w => w % 4294967296) := by
  induction ws with
  | nil => rfl
  | cons w ws ih =>
      simp only [wordsToBytes, wordToBytes, List.cons_append, List.nil_append,
        bytesToWords, List.map_cons, List.cons.injEq]
      exact ⟨by omega, by simpa using ih⟩

/-- Reading back a buffer written from in-range SPIR-V words starting with
the magic number recovers exactly those words. -/
theorem read_spirv_wordsToBytes (ws : List Nat)
    (hmagic : ws.head? = some SPIRV_MAGIC_NUMBER)
    (hrange : ∀ w ∈ ws, w < 4294967296) :
    read_spirv (wordsToBytes ws) = .ok ws := by
  obtain ⟨tl, rfl⟩ : ∃ tl, ws = SPIRV_MAGIC_NUMBER :: tl := by
    cases ws with
    | nil => simp at hmagic
    | cons w tl =>
        simp only [List.head?_cons, Option.some.injEq] at hmagic
        exact ⟨tl, by rw [hmagic]⟩
  have hmap : (SPIRV_MAGIC_NUMBER :: tl).map (fun w => w % 4294967296) =
      SPIRV_MAGIC_NUMBER :: tl := by
    rw [show (SPIRV_MAGIC_NUMBER :: tl) =
        (SPIRV_MAGIC_NUMBER :: tl).map id from (List.map_id _).symm]
    simp only [List.map_map]
    refine List.map_congr_left (fun w hw => ?_)
    simp [Nat.mod_eq_of_lt (hrange w (by simpa using hw))]
  have hlen : ¬ (wordsToBytes (SPIRV_MAGIC_NUMBER :: tl)).length % 4 ≠ 0 := by
    simp [wordsToBytes_length_mod4]
  simp only [read_spirv, hlen, if_false, bytesToWords_wordsToBytes, hmap]
  norm_num [swapBytes32, SPIRV_MAGIC_NUMBER]

/-! ## Branch lemmas for `new_pipeline` -/

theorem new_pipeline_fromSpv_err {M P : Type} (c : Collab M P)
    (st : GfxBackend M P) (fs : FS) (spv : List Nat) (tr : List Event)
    (e : String) (h : (new_pipeline_fromSpv c st fs spv tr).out = .err e) :
    (new_pipeline_fromSpv c st fs spv tr).st = st ∧
      (new_pipeline_fromSpv c st fs spv tr).fs = fs := by
  rcases h1 : c.create_shader_module spv with e1 | m
  · simp [new_pipeline_fromSpv, h1]
  · rcases h2 : c.create_graphics_pipeline (pipelineDescFor st m)
        st.pipeline_cache with e2 | pc
    · simp [new_pipeline_fromSpv, h1, h2]
    · simp [new_pipeline_fromSpv, h1, h2] at h

theorem new_pipeline_fromSpv_ok_handle {M P : Type} (c : Collab M P)
    (st : GfxBackend M P) (fs : FS) (spv : List Nat) (tr : List Event)
    (n : Nat) (h : (new_pipeline_fromSpv c st fs spv tr).out = .ok n) :
    n = st.pipelines.length ∧
      (new_pipeline_fromSpv c st fs spv tr).st.pipelines.length =
        st.pipelines.length + 1 := by
  rcases h1 : c.create_shader_module spv with e1 | m
  · simp [new_pipeline_fromSpv, h1] at h
  · rcases h2 : c.create_graphics_pipeline (pipelineDescFor st m)
        st.pipeline_cache with e2 | pc
    · simp [new_pipeline_fromSpv, h1, h2] at h
    · simp [new_pipeline_fromSpv, h1, h2] at h ⊢
      omega

theorem new_pipeline_fromSpv_ok_trace {M P : Type} (c : Collab M P)
    (st : GfxBackend M P) (fs : FS) (spv : List Nat) (tr : List Event)
    (n : Nat) (h : (new_pipeline_fromSpv c st fs spv tr).out = .ok n) :
    (new_pipeline_fromSpv c st fs spv tr).trace =
      tr ++ [.createShaderModule spv, .createGraphicsPipeline, .lockAcquire,
        .poolPush, .lockRelease] := by
  rcases h1 : c.create_shader_module spv with e1 | m
  · simp [new_pipeline_fromSpv, h1] at h
  · rcases h2 : c.create_graphics_pipeline (pipelineDescFor st m)
        st.pipeline_cache with e2 | pc
    · simp [new_pipeline_fromSpv, h1, h2] at h
    · simp [new_pipeline_fromSpv, h1, h2]

/-- Whatever the device answers, the tail of `new_pipeline` appends only
module/pipeline/lock events to the trace — never a compiler invocation. -/
theorem new_pipeline_fromSpv_trace_shape {M P : Type} (c : Collab M P)
    (st : GfxBackend M P) (fs : FS) (spv : List Nat) (tr : List Event) :
    ∃ suffix, (new_pipeline_fromSpv c st fs spv tr).trace = tr ++ suffix ∧
      ∀ e ∈ suffix, e.isCompilerInvoke = false := by
  rcases h1 : c.create_shader_module spv with e1 | m
  · refine ⟨[.createShaderModule spv], by simp [new_pipeline_fromSpv, h1], ?_⟩
    intro e he
    simp only [List.mem_singleton] at he
    subst he; rfl
  · rcases h2 : c.create_graphics_pipeline (pipelineDescFor st m)
        st.pipeline_cache with e2 | pc
    · refine ⟨[.createShaderModule spv, .createGraphicsPipeline],
        by simp [new_pipeline_fromSpv, h1, h2], ?_⟩
      intro e he
      simp only [List.mem_cons, List.not_mem_nil, or_false] at he
      rcases he with rfl | rfl <;> rfl
    · refine ⟨[.createShaderModule spv, .createGraphicsPipeline, .lockAcquire,
        .poolPush, .lockRelease], by simp [new_pipeline_fromSpv, h1, h2], ?_⟩
      intro e he
      simp only [List.mem_cons, List.not_mem_nil, or_false] at he
      rcases he with rfl | rfl | rfl | rfl | rfl <;> rfl

/-! Route equations: how `new_pipeline` reduces on each branch of the
bytecode cache. -/

theorem new_pipeline_hit {M P : Type} (c : Collab M P) (st : GfxBackend M P)
    (fs : FS) (path source : String) (bytes spv : List Nat)
    (hc : c.compiler_new_ok = true)
    (hex : fs.exists_ (spirvPath path) = true)
    (hr : fs.read (spirvPath path) = .ok bytes)
    (hs : read_spirv bytes = .ok spv) :
    new_pipeline c st fs path source =
      new_pipeline_fromSpv c st fs spv [.fsRead (spirvPath path)] := by
  simp [new_pipeline, hc, hex, hr, hs]

theorem new_pipeline_hit_read_panic {M P : Type} (c : Collab M P)
    (st : GfxBackend M P) (fs : FS) (path source : String) (e : String)
    (hc : c.compiler_new_ok = true)
    (hex : fs.exists_ (spirvPath path) = true)
    (hr : fs.read (spirvPath path) = .error e) :
    new_pipeline c st fs path source =
      ⟨.panic e, st, fs, [.fsRead (spirvPath path)]⟩ := by
  simp [new_pipeline, hc, hex, hr]

theorem new_pipeline_hit_spirv_panic {M P : Type} (c : Collab M P)
    (st : GfxBackend M P) (fs : FS) (path source : String)
    (bytes : List Nat) (e : String)
    (hc : c.compiler_new_ok = true)
    (hex : fs.exists_ (spirvPath path) = true)
    (hr : fs.read (spirvPath path) = .ok bytes)
    (hs : read_spirv bytes = .error e) :
    new_pipeline c st fs path source =
      ⟨.panic e, st, fs, [.fsRead (spirvPath path)]⟩ := by
  simp [new_pipeline, hc, hex, hr, hs]

theorem new_pipeline_miss_compile_err {M P : Type} (c : Collab M P)
    (st : GfxBackend M P) (fs : FS) (path source : String) (e : String)
    (hc : c.compiler_new_ok = true)
    (hex : fs.exists_ (spirvPath path) = false)
    (hcomp : c.compile_into_spirv source .fragment path "main" = .error e) :
    new_pipeline c st fs path source =
      ⟨.err ("glsl->spv error: " ++ e), st, fs,
        [.compilerInvoke source .fragment path "main"]⟩ := by
  simp [new_pipeline, hc, hex, hcomp]

theorem new_pipeline_miss_write_panic {M P : Type} (c : Collab M P)
    (st : GfxBackend M P) (fs : FS) (path source : String) (a : Artifact)
    (e : String)
    (hc : c.compiler_new_ok = true)
    (hex : fs.exists_ (spirvPath path) = false)
    (hcomp : c.compile_into_spirv source .fragment path "main" = .ok a)
    (hw : fs.write (spirvPath path) a.as_binary_u8 = .error e) :
    new_pipeline c st fs path source =
      ⟨.panic e, st, fs, [.compilerInvoke source .fragment path "main"]⟩ := by
  simp [new_pipeline, hc, hex, hcomp, hw]

theorem new_pipeline_miss {M P : Type} (c : Collab M P) (st : GfxBackend M P)
    (fs : FS) (path source : String) (a : Artifact) (fs2 : FS)
    (hc : c.compiler_new_ok = true)
    (hex : fs.exists_ (spirvPath path) = false)
    (hcomp : c.compile_into_spirv source .fragment path "main" = .ok a)
    (hw : fs.write (spirvPath path) a.as_binary_u8 = .ok fs2) :
    new_pipeline c st fs path source =
      new_pipeline_fromSpv c st fs2 a.as_binary
        [.compilerInvoke source .fragment path "main",
          .fsWrite (spirvPath path) a.as_binary_u8] := by
  simp [new_pipeline, hc, hex, hcomp, hw]

theorem new_pipeline_ok_handle {M P : Type} (c : Collab M P)
    (st : GfxBackend M P) (fs : FS) (path source : String) (n : Nat)
    (h : (new_pipeline c st fs path source).out = .ok n) :
    n = st.pipelines.length ∧
      (new_pipeline c st fs path source).st.pipelines.length =
        st.pipelines.length + 1 := by
  rcases hc : c.compiler_new_ok with _ | _
  · simp [new_pipeline, hc] at h
  · rcases hex : fs.exists_ (spirvPath path) with _ | _
    · rcases hcomp : c.compile_into_spirv source .fragment path "main" with e | a
      · rw [new_pipeline_miss_compile_err c st fs path source e hc hex hcomp] at h
        simp at h
      · rcases hw : fs.write (spirvPath path) a.as_binary_u8 with e | fs2
        · rw [new_pipeline_miss_write_panic c st fs path source a e hc hex
            hcomp hw] at h
          simp at h
        · rw [new_pipeline_miss c st fs path source a fs2 hc hex hcomp hw] at h ⊢
          exact new_pipeline_fromSpv_ok_handle _ _ _ _ _ _ h
    · rcases hr : fs.read (spirvPath path) with e | bytes
      · rw [new_pipeline_hit_read_panic c st fs path source e hc hex hr] at h
        simp at h
      · rcases hs : read_spirv bytes with e | spv
        · rw [new_pipeline_hit_spirv_panic c st fs path source bytes e hc hex
            hr hs] at h
          simp at h
        · rw [new_pipeline_hit c st fs path source bytes spv hc hex hr hs] at h ⊢
          exact new_pipeline_fromSpv_ok_handle _ _ _ _ _ _ h

/-- All-successful compile sequences: the pool grows by exactly one per
call and the returned handles are consecutive indices starting at the
initial pool length. -/
theorem runCompiles_all_ok {M P : Type} (c : Collab M P)
    (reqs : List (String × String)) :
    ∀ (st : GfxBackend M P) (fs : FS),
      (∀ o ∈ (runCompiles c st fs reqs).2.2, ∃ n, o = .ok n) →
      (runCompiles c st fs reqs).1.pipelines.length =
          st.pipelines.length + reqs.length ∧
        (runCompiles c st fs reqs).2.2 =
          (List.range reqs.length).map
            (fun i => Outcome.ok (st.pipelines.length + i)) := by
  induction reqs with
  | nil => intro st fs _; simp [runCompiles]
  | cons req rest ih =>
      intro st fs hall
      obtain ⟨path, source⟩ := req
      simp only [runCompiles] at hall ⊢
      obtain ⟨n, hn⟩ := hall _ (List.mem_cons_self _ _)
      obtain ⟨hn2, hlen⟩ := new_pipeline_ok_handle c st fs path source n hn
      have htail := fun o ho => hall o (List.mem_cons_of_mem _ ho)
      obtain ⟨ih1, ih2⟩ := ih (new_pipeline c st fs path source).st
        (new_pipeline c st fs path source).fs htail
      constructor
      · simp only [List.length_cons]
        omega
      · rw [hn, hn2, ih2]
        simp only [List.length_cons, List.range_succ_eq_map, List.map_cons,
          List.map_map, Nat.add_zero, hlen]
        congr 1
        refine List.map_congr_left (fun i _ => ?_)
        simp only [Function.comp_apply]
        congr 1
        omega

theorem new_pipeline_fromSpv_mem_module {M P : Type} (c : Collab M P)
    (st : GfxBackend M P) (fs : FS) (spv : List Nat) (tr : List Event) :
    Event.createShaderModule spv ∈ (new_pipeline_fromSpv c st fs spv tr).trace := by
  rcases h1 : c.create_shader_module spv with e1 | m
  · simp [new_pipeline_fromSpv, h1]
  · rcases h2 : c.create_graphics_pipeline (pipelineDescFor st m)
        st.pipeline_cache with e2 | pc
    · simp [new_pipeline_fromSpv, h1, h2]
    · simp [new_pipeline_fromSpv, h1, h2]

theorem new_pipeline_fromSpv_fs {M P : Type} (c : Collab M P)
    (st : GfxBackend M P) (fs : FS) (spv : List Nat) (tr : List Event) :
    (new_pipeline_fromSpv c st fs spv tr).fs = fs := by
  rcases h1 : c.create_shader_module spv with e1 | m
  · simp [new_pipeline_fromSpv, h1]
  · rcases h2 : c.create_graphics_pipeline (pipelineDescFor st m)
        st.pipeline_cache with e2 | pc
    · simp [new_pipeline_fromSpv, h1, h2]
    · simp [new_pipeline_fromSpv, h1, h2]

/-! ## Claim theorems -/

/-- C1: after N successful `new_pipeline` (`compile_shader`) calls on a
fresh backend — whatever the paths and sources, including repeating the same
path and source — the pipeline pool contains exactly N pipelines and the
returned handles are 0, 1, …, N-1 in call order: the pool is append-only
and a repeat compile gets a fresh next-in-sequence handle, with no
deduplication by content. -/
theorem C1_pool_handles {M P : Type} (c : Collab M P) (vm : M)
    (cache : List Nat) (fs : FS) (reqs : List (String × String))
    (hall : ∀ o ∈ (runCompiles c ⟨[], vm, cache⟩ fs reqs).2.2, ∃ n, o = .ok n) :
    (runCompiles c ⟨[], vm, cache⟩ fs reqs).1.pipelines.length = reqs.length ∧
      (runCompiles c ⟨[], vm, cache⟩ fs reqs).2.2 =
        (List.range reqs.length).map Outcome.ok := by
  obtain ⟨h1, h2⟩ := runCompiles_all_ok c reqs ⟨[], vm, cache⟩ fs hall
  refine ⟨by simpa using h1, ?_⟩
  rw [h2]
  exact List.map_congr_left (fun i _ => by simp)

/-- Witness for C1: a three-call run that repeats `"red.frag"` (the third
call hits the bytecode cache written by the first) returns handles
`[0, 1, 2]` and a pool of three pipelines. -/
theorem C1_pool_handles_witness :
    (∀ o ∈ (runCompiles okCollab ⟨[], (), []⟩ fs0 reqsRBR).2.2,
        ∃ n, o = .ok n) ∧
      ((runCompiles okCollab ⟨[], (), []⟩ fs0 reqsRBR).1.pipelines.length = 3 ∧
        (runCompiles okCollab ⟨[], (), []⟩ fs0 reqsRBR).2.2 =
          (List.range 3).map Outcome.ok) := by
  have hall : ∀ o ∈ (runCompiles okCollab ⟨[], (), []⟩ fs0 reqsRBR).2.2,
      ∃ n, o = .ok n := by
    have houts : (runCompiles okCollab ⟨[], (), []⟩ fs0 reqsRBR).2.2 =
        [.ok 0, .ok 1, .ok 2] := by decide
    rw [houts]
    intro o ho
    simp only [List.mem_cons, List.not_mem_nil, or_false] at ho
    rcases ho with rfl | rfl | rfl
    exacts [⟨0, rfl⟩, ⟨1, rfl⟩, ⟨2, rfl⟩]
  exact ⟨hall, C1_pool_handles okCollab () [] fs0 reqsRBR hall⟩

/-- C5: when the bytecode cache misses and the compiler fails,
`new_pipeline` returns the `Err` carrying the compiler's diagnostic
(`"glsl->spv error: …"`) and changes nothing: the backend state and the
filesystem are returned untouched, and the trace shows the compiler
invocation only — no cache-file write. -/
theorem C5_compile_error {M P : Type} (c : Collab M P) (st : GfxBackend M P)
    (fs : FS) (path source diag : String)
    (hc : c.compiler_new_ok = true)
    (hex : fs.exists_ (spirvPath path) = false)
    (hcomp : c.compile_into_spirv source .fragment path "main" = .error diag) :
    new_pipeline c st fs path source =
      ⟨.err ("glsl->spv error: " ++ diag), st, fs,
        [.compilerInvoke source .fragment path "main"]⟩ :=
  new_pipeline_miss_compile_err c st fs path source diag hc hex hcomp

/-- Witness for C5 at a concrete failing compile. -/
theorem C5_compile_error_witness :
    failCollab.compiler_new_ok = true ∧
      fs0.exists_ (spirvPath "bad.frag") = false ∧
      new_pipeline failCollab st0 fs0 "bad.frag" "notglsl" =
        ⟨.err ("glsl->spv error: " ++ "syntax error"), st0, fs0,
          [.compilerInvoke "notglsl" .fragment "bad.frag" "main"]⟩ :=
  ⟨rfl, by decide,
    C5_compile_error failCollab st0 fs0 "bad.frag" "notglsl" "syntax error"
      rfl (by decide) rfl⟩

/-- C7: when the bytecode cache file for the key is present, the entire
result of `new_pipeline` (outcome, state, filesystem, trace) is independent
of the source string: the persisted bytecode is trusted without any
re-validation against the source text. -/
theorem C7_source_independent {M P : Type} (c : Collab M P)
    (st : GfxBackend M P) (fs : FS) (path s1 s2 : String)
    (hex : fs.exists_ (spirvPath path) = true) :
    new_pipeline c st fs path s1 = new_pipeline c st fs path s2 := by
  rcases hc : c.compiler_new_ok with _ | _
  · simp [new_pipeline, hc]
  · simp [new_pipeline, hc, hex]

/-- Witness for C7: with `"red.frag.spv"` on disk, two different source
strings give identical results. -/
theorem C7_source_independent_witness :
    fsRed.exists_ (spirvPath "red.frag") = true ∧
      new_pipeline okCollab st0 fsRed "red.frag" "one source" =
        new_pipeline okCollab st0 fsRed "red.frag" "another source" :=
  ⟨by decide,
    C7_source_independent okCollab st0 fsRed "red.frag" "one source"
      "another source" (by decide)⟩

/-- C10: every `Err` return of `new_pipeline` (compiler failure,
shader-module failure or pipeline-creation failure) leaves the backend state
unchanged: the pool is exactly as before the call, so its length and every
previously issued handle keep their meaning. -/
theorem C10_err_state_unchanged {M P : Type} (c : Collab M P)
    (st : GfxBackend M P) (fs : FS) (path source e : String)
    (h : (new_pipeline c st fs path source).out = .err e) :
    (new_pipeline c st fs path source).st = st := by
  rcases hc : c.compiler_new_ok with _ | _
  · simp [new_pipeline, hc] at h
  · rcases hex : fs.exists_ (spirvPath path) with _ | _
    · rcases hcomp : c.compile_into_spirv source .fragment path "main" with e2 | a
      · rw [new_pipeline_miss_compile_err c st fs path source e2 hc hex hcomp]
      · rcases hw : fs.write (spirvPath path) a.as_binary_u8 with e2 | fs2
        · rw [new_pipeline_miss_write_panic c st fs path source a e2 hc hex
            hcomp hw] at h
          simp at h
        · rw [new_pipeline_miss c st fs path source a fs2 hc hex hcomp hw] at h ⊢
          exact (new_pipeline_fromSpv_err _ _ _ _ _ _ h).1
    · rcases hr : fs.read (spirvPath path) with e2 | bytes
      · rw [new_pipeline_hit_read_panic c st fs path source e2 hc hex hr] at h
        simp at h
      · rcases hs : read_spirv bytes with e2 | spv
        · rw [new_pipeline_hit_spirv_panic c st fs path source bytes e2 hc hex
            hr hs] at h
          simp at h
        · rw [new_pipeline_hit c st fs path source bytes spv hc hex hr hs] at h ⊢
          exact (new_pipeline_fromSpv_err _ _ _ _ _ _ h).1

/-- Witness for C10 at a concrete failing compile. -/
theorem C10_err_state_unchanged_witness :
    (new_pipeline failCollab st0 fs0 "bad.frag" "x").out =
        .err ("glsl->spv error: " ++ "syntax error") ∧
      (new_pipeline failCollab st0 fs0 "bad.frag" "x").st = st0 :=
  ⟨by decide,
    C10_err_state_unchanged failCollab st0 fs0 "bad.frag" "x"
      ("glsl->spv error: " ++ "syntax error") (by decide)⟩

/-- C2: (first part) whenever the bytecode cache file for the key exists,
`new_pipeline` never invokes the compiler, and the SPIR-V it proceeds with
is exactly `read_spirv` of that file's contents; (second part) after a
first cache-miss compile with a valid artifact, a second call with the same
key passes to the device bytecode identical to the first call's
(`a.as_binary`), read back from the cache file (whose contents are the
artifact's bytes verbatim), without invoking the compiler. -/
theorem C2_cache_hit_reuses_bytecode :
    (∀ (M P : Type) (c : Collab M P) (st : GfxBackend M P) (fs : FS)
        (path source : String),
      c.compiler_new_ok = true →
      fs.exists_ (spirvPath path) = true →
      (∀ e ∈ (new_pipeline c st fs path source).trace,
          e.isCompilerInvoke = false) ∧
        (∀ bytes spv, fs.read (spirvPath path) = .ok bytes →
          read_spirv bytes = .ok spv →
          new_pipeline c st fs path source =
            new_pipeline_fromSpv c st fs spv [.fsRead (spirvPath path)])) ∧
    (∀ (M P : Type) (c : Collab M P) (st : GfxBackend M P) (fs : FS)
        (path source source2 : String) (a : Artifact),
      c.compiler_new_ok = true →
      fs.exists_ (spirvPath path) = false →
      c.compile_into_spirv source .fragment path "main" = .ok a →
      a.binary.head? = some SPIRV_MAGIC_NUMBER →
      (∀ w ∈ a.binary, w < 4294967296) →
      fs.writeFail.contains (spirvPath path) = false →
      fs.readFail.contains (spirvPath path) = false →
      Event.createShaderModule a.as_binary ∈
          (new_pipeline c st fs path source).trace ∧
        (new_pipeline c st fs path source).fs.read (spirvPath path) =
          .ok a.as_binary_u8 ∧
        Event.createShaderModule a.as_binary ∈
          (new_pipeline c (new_pipeline c st fs path source).st
            (new_pipeline c st fs path source).fs path source2).trace ∧
        (∀ e ∈ (new_pipeline c (new_pipeline c st fs path source).st
            (new_pipeline c st fs path source).fs path source2).trace,
          e.isCompilerInvoke = false)) := by
  constructor
  · intro M P c st fs path source hc hex
    rcases hr : fs.read (spirvPath path) with e | bytes
    · rw [new_pipeline_hit_read_panic c st fs path source e hc hex hr]
      refine ⟨?_, ?_⟩
      · intro ev hev
        simp only [List.mem_singleton] at hev
        subst hev; rfl
      · intro bytes spv hr2
        exact absurd hr2 (by simp)
    · rcases hs : read_spirv bytes with e | spv
      · rw [new_pipeline_hit_spirv_panic c st fs path source bytes e hc hex hr hs]
        refine ⟨?_, ?_⟩
        · intro ev hev
          simp only [List.mem_singleton] at hev
          subst hev; rfl
        · intro bytes2 spv2 hr2 hs2
          injection hr2 with hb
          subst hb
          rw [hs] at hs2
          exact absurd hs2 (by simp)
      · rw [new_pipeline_hit c st fs path source bytes spv hc hex hr hs]
        refine ⟨?_, ?_⟩
        · obtain ⟨suffix, hsf, hnone⟩ :=
            new_pipeline_fromSpv_trace_shape c st fs spv
              [.fsRead (spirvPath path)]
          rw [hsf]
          intro ev hev
          rcases List.mem_append.1 hev with h | h
          · simp only [List.mem_singleton] at h
            subst h; rfl
          · exact hnone ev h
        · intro bytes2 spv2 hr2 hs2
          injection hr2 with hb
          subst hb
          rw [hs] at hs2
          injection hs2 with hspv
          subst hspv
          rfl
  · intro M P c st fs path source source2 a hc hex hcomp hmagic hrange hwf hrf
    have hwf2 : spirvPath path ∉ fs.writeFail := by simpa using hwf
    have hrf2 : spirvPath path ∉ fs.readFail := by simpa using hrf
    have hw : fs.write (spirvPath path) a.as_binary_u8 =
        .ok ⟨(spirvPath path, a.as_binary_u8) ::
          fs.files.eraseP (fun q => q.1 = spirvPath path),
          fs.readFail, fs.writeFail⟩ := by
      simp [FS.write, hwf2]
    rw [new_pipeline_miss c st fs path source a _ hc hex hcomp hw]
    set fs2 : FS := ⟨(spirvPath path, a.as_binary_u8) ::
      fs.files.eraseP (fun q => q.1 = spirvPath path),
      fs.readFail, fs.writeFail⟩ with hfs2
    have hfs : (new_pipeline_fromSpv c st fs2 a.as_binary
        [.compilerInvoke source .fragment path "main",
          .fsWrite (spirvPath path) a.as_binary_u8]).fs = fs2 :=
      new_pipeline_fromSpv_fs ..
    have hread : fs2.read (spirvPath path) = .ok a.as_binary_u8 := by
      simp [FS.read, hfs2, hrf2, List.lookup]
    refine ⟨new_pipeline_fromSpv_mem_module .., ?_, ?_, ?_⟩
    · rw [hfs]; exact hread
    · rw [hfs]
      have hex2 : fs2.exists_ (spirvPath path) = true := by
        simp [FS.exists_, hfs2, List.lookup]
      have hspv : read_spirv a.as_binary_u8 = .ok a.as_binary :=
        read_spirv_wordsToBytes a.binary hmagic hrange
      rw [new_pipeline_hit c _ fs2 path source2 a.as_binary_u8 a.as_binary
        hc hex2 hread hspv]
      exact new_pipeline_fromSpv_mem_module ..
    · rw [hfs]
      have hex2 : fs2.exists_ (spirvPath path) = true := by
        simp [FS.exists_, hfs2, List.lookup]
      have hspv : read_spirv a.as_binary_u8 = .ok a.as_binary :=
        read_spirv_wordsToBytes a.binary hmagic hrange
      rw [new_pipeline_hit c _ fs2 path source2 a.as_binary_u8 a.as_binary
        hc hex2 hread hspv]
      obtain ⟨suffix, hsf, hnone⟩ :=
        new_pipeline_fromSpv_trace_shape c _ fs2 a.as_binary
          [.fsRead (spirvPath path)]
      rw [hsf]
      intro ev hev
      rcases List.mem_append.1 hev with h | h
      · simp only [List.mem_singleton] at h
        subst h; rfl
      · exact hnone ev h

/-- Witness for C2: a cache hit on `"red.frag.spv"` never invokes the
compiler, and a miss-then-hit pair on a fresh filesystem hands the device
identical bytecode both times, the second time without the compiler. -/
theorem C2_cache_hit_reuses_bytecode_witness :
    (fsRed.exists_ (spirvPath "red.frag") = true ∧
      (∀ e ∈ (new_pipeline okCollab st0 fsRed "red.frag" "src").trace,
          e.isCompilerInvoke = false)) ∧
    (fs0.exists_ (spirvPath "red.frag") = false ∧
      Event.createShaderModule (Artifact.mk [SPIRV_MAGIC_NUMBER, 42]).as_binary ∈
        (new_pipeline okCollab (new_pipeline okCollab st0 fs0 "red.frag" "s1").st
          (new_pipeline okCollab st0 fs0 "red.frag" "s1").fs "red.frag" "s2").trace ∧
      (∀ e ∈ (new_pipeline okCollab
          (new_pipeline okCollab st0 fs0 "red.frag" "s1").st
          (new_pipeline okCollab st0 fs0 "red.frag" "s1").fs "red.frag" "s2").trace,
        e.isCompilerInvoke = false)) := by
  constructor
  · exact ⟨by decide, (C2_cache_hit_reuses_bytecode.1 Unit Unit okCollab st0 fsRed
      "red.frag" "src" rfl (by decide)).1⟩
  · have h := C2_cache_hit_reuses_bytecode.2 Unit Unit okCollab st0 fs0
      "red.frag" "s1" "s2" ⟨[SPIRV_MAGIC_NUMBER, 42]⟩ rfl (by decide) rfl
      (by decide) (by decide) (by decide) (by decide)
    exact ⟨by decide, h.2.2.1, h.2.2.2⟩

/-- C8: whenever the SPIR-V stage has produced bytecode (either from the
cache file or from a fresh successful compile-and-write) and the device then
rejects shader-module creation or graphics-pipeline creation, `new_pipeline`
returns an `Err` carrying the device's diagnostic — it neither panics nor
returns a handle. -/
theorem C8_device_error {M P : Type} (c : Collab M P) (st : GfxBackend M P)
    (fs : FS) (path source : String) (spv : List Nat) (e : String)
    (hc : c.compiler_new_ok = true)
    (hroute : (fs.exists_ (spirvPath path) = true ∧
        ∃ bytes, fs.read (spirvPath path) = .ok bytes ∧
          read_spirv bytes = .ok spv) ∨
      (fs.exists_ (spirvPath path) = false ∧
        ∃ a fs2, c.compile_into_spirv source .fragment path "main" = .ok a ∧
          spv = a.as_binary ∧
          fs.write (spirvPath path) a.as_binary_u8 = .ok fs2))
    (hdev : c.create_shader_module spv = .error e ∨
      ∃ m, c.create_shader_module spv = .ok m ∧
        c.create_graphics_pipeline (pipelineDescFor st m) st.pipeline_cache =
          .error e) :
    (new_pipeline c st fs path source).out =
        .err ("create_shader_module error: " ++ e) ∨
      (new_pipeline c st fs path source).out =
        .err ("pipeline creation failed: " ++ e) := by
  obtain ⟨fs2, tr, heq⟩ : ∃ fs2 tr, new_pipeline c st fs path source =
      new_pipeline_fromSpv c st fs2 spv tr := by
    rcases hroute with ⟨hex, bytes, hr, hs⟩ | ⟨hex, a, fs2, hcomp, rfl, hw⟩
    · exact ⟨fs, _, new_pipeline_hit c st fs path source bytes spv hc hex hr hs⟩
    · exact ⟨fs2, _, new_pipeline_miss c st fs path source a fs2 hc hex hcomp hw⟩
  rw [heq]
  rcases hdev with h1 | ⟨m, h1, h2⟩
  · left
    simp [new_pipeline_fromSpv, h1]
  · right
    simp [new_pipeline_fromSpv, h1, h2]

/-- Witness for C8: with the cache file present and a device that rejects
every shader module, the call returns the module-creation error. -/
theorem C8_device_error_witness :
    moduleFailCollab.create_shader_module [SPIRV_MAGIC_NUMBER, 42] =
        .error "bad module" ∧
      ((new_pipeline moduleFailCollab st0 fsRed "red.frag" "s").out =
          .err ("create_shader_module error: " ++ "bad module") ∨
        (new_pipeline moduleFailCollab st0 fsRed "red.frag" "s").out =
          .err ("pipeline creation failed: " ++ "bad module")) :=
  ⟨rfl, C8_device_error moduleFailCollab st0 fsRed "red.frag" "s"
    [SPIRV_MAGIC_NUMBER, 42] "bad module" rfl
    (Or.inl ⟨by decide, wordsToBytes [SPIRV_MAGIC_NUMBER, 42], rfl, rfl⟩)
    (Or.inl rfl)⟩

/-! ## Lock-trace helper lemmas -/

theorem eventsUnderLock_tail (spv : List Nat) (tr0 : List Event)
    (h : ∀ e ∈ tr0, e ≠ Event.lockAcquire ∧ e ≠ Event.lockRelease) :
    eventsUnderLock (tr0 ++ [.createShaderModule spv, .createGraphicsPipeline,
      .lockAcquire, .poolPush, .lockRelease]) false = [Event.poolPush] := by
  induction tr0 with
  | nil => simp [eventsUnderLock]
  | cons e tl ih =>
      obtain ⟨h1, h2⟩ := h e (List.mem_cons_self _ _)
      rw [List.cons_append]
      simp only [eventsUnderLock, h1, h2, if_false, Bool.false_eq_true,
        ite_false]
      exact ih (fun x hx => h x (List.mem_cons_of_mem _ hx))

/-- C3: `write_pipeline_cache` reads the pipeline-cache data back from the
device (and panics if that read fails) but performs no filesystem write at
all: the filesystem after the call is exactly the one before, so the
well-known `"happy_cache.cache"` file is never (over)written — the
`std::fs::write` call in the source is commented out. -/
theorem C3_flush_never_writes {M P : Type} (c : Collab M P)
    (st : GfxBackend M P) (fs : FS) :
    (write_pipeline_cache c st fs).2.1 = fs ∧
      (write_pipeline_cache c st fs).2.2 = [.getPipelineCacheData] := by
  unfold write_pipeline_cache
  rcases h : c.get_pipeline_cache_data st.pipeline_cache with e | d <;> simp

/-- C4 counterexample: on an empty filesystem (first run, no
`"happy_cache.cache"`), the pipeline-cache initialisation of
`GfxBackend::new` panics — it does not succeed with an empty cache blob. -/
theorem C4_counterexample :
    new_cache_init okCollab fs0 = .panic "No such file or directory" ∧
      ¬ ∃ blob, new_cache_init okCollab fs0 = .ok blob := by
  refine ⟨rfl, ?_⟩
  rintro ⟨blob, hb⟩
  rw [show new_cache_init okCollab fs0 = .panic "No such file or directory"
      from rfl] at hb
  exact Outcome.noConfusion hb

/-- C4 amended: at backend construction, when the well-known pipeline-cache
file is absent or unreadable, the `std::fs::read(...).unwrap()` panics:
construction aborts rather than proceeding with an empty cache blob. -/
theorem C4_construction_panics {M P : Type} (c : Collab M P) (fs : FS)
    (h : fs.files.lookup pipeline_cache_file = none ∨
      fs.readFail.contains pipeline_cache_file = true) :
    ∃ e, new_cache_init c fs = .panic e := by
  rcases hrf : fs.readFail.contains pipeline_cache_file with _ | _
  · have hrf2 : pipeline_cache_file ∉ fs.readFail := by simpa using hrf
    rcases h with h | h
    · exact ⟨"No such file or directory",
        by simp [new_cache_init, FS.read, hrf2, h]⟩
    · rw [hrf] at h
      cases h
  · have hrf2 : pipeline_cache_file ∈ fs.readFail := by simpa using hrf
    exact ⟨"I/O error", by simp [new_cache_init, FS.read, hrf2]⟩

/-- Witness for the amended C4 on the empty filesystem. -/
theorem C4_construction_panics_witness :
    (fs0.files.lookup pipeline_cache_file = none ∨
        fs0.readFail.contains pipeline_cache_file = true) ∧
      ∃ e, new_cache_init okCollab fs0 = .panic e :=
  ⟨Or.inl rfl, C4_construction_panics okCollab fs0 (Or.inl rfl)⟩

/-- C6 counterexample: bytecode-cache I/O failures are fatal, not graceful.
With `"f.frag.spv"` present but unreadable, `new_pipeline` panics and never
invokes the compiler (no fallback to recompilation); with the cache-file
write failing after a successful compile, it panics instead of returning
success. -/
theorem C6_counterexample :
    (new_pipeline okCollab st0 fsReadFailF "f.frag" "s").out =
        .panic "I/O error" ∧
      ((new_pipeline okCollab st0 fsReadFailF "f.frag" "s").trace.all
        (fun e => !e.isCompilerInvoke)) = true ∧
      (new_pipeline okCollab st0 fsWriteFailG "g.frag" "s").out =
        .panic "I/O error" :=
  ⟨rfl, rfl, rfl⟩

/-- C6 amended: a failure to read an existing bytecode cache file, and a
failure to write the cache file after a successful compile, both panic
(`unwrap`): the compile neither returns success nor falls back to
recompilation. -/
theorem C6_cache_io_fatal {M P : Type} (c : Collab M P)
    (st : GfxBackend M P) (fs : FS) (path source e : String)
    (hc : c.compiler_new_ok = true)
    (h : (fs.exists_ (spirvPath path) = true ∧
        fs.read (spirvPath path) = .error e) ∨
      (fs.exists_ (spirvPath path) = false ∧
        ∃ a, c.compile_into_spirv source .fragment path "main" = .ok a ∧
          fs.write (spirvPath path) a.as_binary_u8 = .error e)) :
    (new_pipeline c st fs path source).out = .panic e := by
  rcases h with ⟨hex, hr⟩ | ⟨hex, a, hcomp, hw⟩
  · rw [new_pipeline_hit_read_panic c st fs path source e hc hex hr]
  · rw [new_pipeline_miss_write_panic c st fs path source a e hc hex hcomp hw]

/-- Witness for the amended C6 at the unreadable cache file. -/
theorem C6_cache_io_fatal_witness :
    (fsReadFailF.exists_ (spirvPath "f.frag") = true ∧
        fsReadFailF.read (spirvPath "f.frag") = .error "I/O error") ∧
      (new_pipeline okCollab st0 fsReadFailF "f.frag" "s").out =
        .panic "I/O error" :=
  ⟨⟨by decide, rfl⟩,
    C6_cache_io_fatal okCollab st0 fsReadFailF "f.frag" "s" "I/O error" rfl
      (Or.inl ⟨by decide, rfl⟩)⟩

/-- C9 counterexample: in a concrete successful `new_pipeline` run,
graphics-pipeline creation is in the trace but is not among the events
performed while the pool lock is held, and `render_frame` (a `todo!()`)
panics having taken no lock at all. -/
theorem C9_counterexample :
    Event.createGraphicsPipeline ∈
        (new_pipeline okCollab st0 fs0 "red.frag" "s").trace ∧
      Event.createGraphicsPipeline ∉
        eventsUnderLock (new_pipeline okCollab st0 fs0 "red.frag" "s").trace
          false ∧
      (render_frame st0 (0 : Nat)).1 = .panic "not yet implemented" ∧
      (render_frame st0 (0 : Nat)).2 = [] :=
  ⟨by decide, by decide, rfl, rfl⟩

/-- C9 amended: `new_pipeline` creates the shader module and the graphics
pipeline (the steps that mutate shared device-level cache state) before
acquiring the pool lock: in any successful call the only event inside the
locked critical section is the pool push; and `render_frame` is `todo!()`,
performing no lock operation. -/
theorem C9_lock_only_guards_push {M P α : Type} (c : Collab M P)
    (st st2 : GfxBackend M P) (fs : FS) (path source : String) (n : Nat)
    (params : α)
    (h : (new_pipeline c st fs path source).out = .ok n) :
    Event.createGraphicsPipeline ∈ (new_pipeline c st fs path source).trace ∧
      eventsUnderLock (new_pipeline c st fs path source).trace false =
        [Event.poolPush] ∧
      (render_frame st2 params).2 = [] := by
  have htr : ∃ tr0 fs2 spv, (∀ e ∈ tr0, e ≠ Event.lockAcquire ∧
        e ≠ Event.lockRelease) ∧
      new_pipeline c st fs path source =
        new_pipeline_fromSpv c st fs2 spv tr0 := by
    rcases hc : c.compiler_new_ok with _ | _
    · rw [show new_pipeline c st fs path source =
          ⟨.panic "shaderc Compiler creation failed", st, fs, []⟩
          from by simp [new_pipeline, hc]] at h
      simp at h
    · rcases hex : fs.exists_ (spirvPath path) with _ | _
      · rcases hcomp : c.compile_into_spirv source .fragment path "main"
            with e2 | a
        · rw [new_pipeline_miss_compile_err c st fs path source e2 hc hex
            hcomp] at h
          simp at h
        · rcases hw : fs.write (spirvPath path) a.as_binary_u8 with e2 | fs2
          · rw [new_pipeline_miss_write_panic c st fs path source a e2 hc hex
              hcomp hw] at h
            simp at h
          · refine ⟨_, fs2, a.as_binary, ?_,
              new_pipeline_miss c st fs path source a fs2 hc hex hcomp hw⟩
            intro e he
            simp only [List.mem_cons, List.not_mem_nil, or_false] at he
            rcases he with rfl | rfl <;> exact ⟨by simp, by simp⟩
      · rcases hr : fs.read (spirvPath path) with e2 | bytes
        · rw [new_pipeline_hit_read_panic c st fs path source e2 hc hex hr] at h
          simp at h
        · rcases hs : read_spirv bytes with e2 | spv
          · rw [new_pipeline_hit_spirv_panic c st fs path source bytes e2 hc
              hex hr hs] at h
            simp at h
          · refine ⟨_, fs, spv, ?_,
              new_pipeline_hit c st fs path source bytes spv hc hex hr hs⟩
            intro e he
            simp only [List.mem_singleton] at he
            subst he
            exact ⟨by simp, by simp⟩
  obtain ⟨tr0, fs2, spv, htr0, heq⟩ := htr
  rw [heq] at h ⊢
  rw [new_pipeline_fromSpv_ok_trace c st fs2 spv tr0 n h]
  refine ⟨by simp, ?_, rfl⟩
  exact eventsUnderLock_tail spv tr0 htr0

/-- Witness for the amended C9 at a concrete successful compile. -/
theorem C9_lock_only_guards_push_witness :
    (new_pipeline okCollab st0 fs0 "red.frag" "s").out = .ok 0 ∧
      (Event.createGraphicsPipeline ∈
          (new_pipeline okCollab st0 fs0 "red.frag" "s").trace ∧
        eventsUnderLock (new_pipeline okCollab st0 fs0 "red.frag" "s").trace
            false = [Event.poolPush] ∧
        (render_frame st0 (0 : Nat)).2 = []) :=
  ⟨by decide, C9_lock_only_guards_push okCollab st0 st0 fs0 "red.frag" "s" 0
    (0 : Nat) (by decide)⟩

end ShadertoyBrowser



